import Mathlib

/-!
Verification of the Edikte-Monitor document-extraction pipeline.

This file gives a shallow embedding, in Lean 4, of the extraction and
state-tracking core of the repository (src/main.py and src/enricher.py):
the land-registry Section-B/Section-C pattern extractor, the candidate
field cleaners, the LLM text-extractor wrapper, and the selection
predicates of the batch passes (enrichment, quality check, vision pass,
repair pass).  Python string/regex behaviour is modelled by hand-written
total functions that follow the semantics of the exact regular
expressions appearing in the source (including greedy/lazy backtracking
where it is observable); machine-level details that cannot matter for
the inputs of this development (full Unicode case folding beyond the
German letters, '\r'-style line breaks) are noted at the definitions.
-/

namespace Edikte

/-! ## Python string primitives -/

/-- Python `str.isspace` for the characters that occur in this code base
(ASCII whitespace). -/
def pyIsSpace (c : Char) : Bool :=
  c = ' ' || c = '\t' || c = '\n' || c = '\r' || c = '\x0b' || c = '\x0c'

/-- ASCII digit test, matching `\d` on the inputs of this pipeline. -/
def pyIsDigit (c : Char) : Bool := c.isDigit

/-- Lower-casing of one character: ASCII plus the German vowels used in the
source strings ('ß' needs no mapping; Python's 'ß'.upper() = "SS" cannot
affect any of the ASCII markers searched for below). -/
def pyLowerChar (c : Char) : Char :=
  if 'A' ≤ c && c ≤ 'Z' then Char.ofNat (c.toNat + 32)
  else if c = 'Ä' then 'ä'
  else if c = 'Ö' then 'ö'
  else if c = 'Ü' then 'ü'
  else c

/-- Upper-casing of one character (ASCII plus German vowels). -/
def pyUpperChar (c : Char) : Char :=
  if 'a' ≤ c && c ≤ 'z' then Char.ofNat (c.toNat - 32)
  else if c = 'ä' then 'Ä'
  else if c = 'ö' then 'Ö'
  else if c = 'ü' then 'Ü'
  else c

/-- Python `str.lower`. -/
def pyLower (s : String) : String := ⟨s.data.map pyLowerChar⟩

/-- Python `str.upper`. -/
def pyUpper (s : String) : String := ⟨s.data.map pyUpperChar⟩

/-- Python `str.isalpha` for one character: ASCII letters plus the German
letters appearing in this repository's data. -/
def pyIsAlphaChar (c : Char) : Bool :=
  c.isAlpha || c = 'ä' || c = 'ö' || c = 'ü' || c = 'ß' ||
    c = 'Ä' || c = 'Ö' || c = 'Ü'

/-- Python `any(c.isalpha() for c in s)`. -/
def pyAnyAlpha (s : String) : Bool := s.data.any pyIsAlphaChar

/-- Python `any(c.isalnum() for c in s)`. -/
def pyAnyAlnum (s : String) : Bool :=
  s.data.any (fun c => pyIsAlphaChar c || pyIsDigit c)

/-- Regex `\w` (word character) as used with Python's default Unicode
semantics on this repository's data: letters, digits, underscore. -/
def pyIsWordChar (c : Char) : Bool :=
  pyIsAlphaChar c || pyIsDigit c || c = '_'

/-- Drop from the end of a list while a predicate holds. -/
def dropEndWhile (p : Char → Bool) (cs : List Char) : List Char :=
  (cs.reverse.dropWhile p).reverse

/-- Python `str.strip()` (no argument: whitespace). -/
def pyStrip (s : String) : String :=
  ⟨dropEndWhile pyIsSpace (s.data.dropWhile pyIsSpace)⟩

/-- Python `str.lstrip(set)`. -/
def pyLStripSet (set : List Char) (s : String) : String :=
  ⟨s.data.dropWhile (fun c => set.contains c)⟩

/-- Python `str.rstrip(set)`. -/
def pyRStripSet (set : List Char) (s : String) : String :=
  ⟨dropEndWhile (fun c => set.contains c) s.data⟩

/-- Python `str.strip(set)`. -/
def pyStripSet (set : List Char) (s : String) : String :=
  pyRStripSet set (pyLStripSet set s)

/-- Python `str.rstrip()` (whitespace). -/
def pyRStrip (s : String) : String := ⟨dropEndWhile pyIsSpace s.data⟩

/-- Is one character list a prefix of another? -/
def charsPrefixOf : List Char → List Char → Bool
  | [], _ => true
  | _ :: _, [] => false
  | a :: as, b :: bs => a = b && charsPrefixOf as bs

/-- Is the first character list an infix (contiguous substring) of the
second?  Models Python's `needle in haystack`. -/
def charsInfixOf (n : List Char) : List Char → Bool
  | [] => charsPrefixOf n []
  | c :: t => charsPrefixOf n (c :: t) || charsInfixOf n t

/-- Python `needle in haystack` on strings. -/
def containsSub (needle s : String) : Bool := charsInfixOf needle.data s.data

/-- Split a character list on a separator character. -/
def splitOnCharAux (sep : Char) : List Char → List Char → List (List Char)
  | [], acc => [acc.reverse]
  | c :: t, acc =>
    if c = sep then acc.reverse :: splitOnCharAux sep t []
    else splitOnCharAux sep t (c :: acc)

/-- Python `str.split(sep)` for a one-character separator. -/
def pySplitChar (sep : Char) (s : String) : List String :=
  (splitOnCharAux sep s.data []).map (fun l => ⟨l⟩)

/-- Python `str.splitlines()` for strings whose only line break is '\n'
(the only break produced by the PDF-text joins in this code base). -/
def pySplitlines (s : String) : List String :=
  if s.data.isEmpty then []
  else
    let ps := pySplitChar '\n' s
    if ps.getLast? = some "" then ps.dropLast else ps

/-- Python `len` on a string (number of code points). -/
def strLen (s : String) : Nat := s.data.length

/-- Python slicing `s[:n]`. -/
def pyTake (n : Nat) (s : String) : String := ⟨s.data.take n⟩

/-- Python truthiness of a string (`bool(s)`). -/
def pyTruthy (s : String) : Bool := !s.data.isEmpty

/-- Length of the leading whitespace run. -/
def wsRun (cs : List Char) : Nat := (cs.takeWhile pyIsSpace).length

/-- Length of the leading ASCII-digit run. -/
def digitRun (cs : List Char) : Nat := (cs.takeWhile pyIsDigit).length

/-- Consume a literal, case-insensitively (the literal and the input have
the same length when folded characterwise, as is the case for every
literal in the source regexes). -/
def consumeLitCi : List Char → List Char → Option (List Char)
  | [], cs => some cs
  | _ :: _, [] => none
  | a :: as, c :: cs =>
    if pyLowerChar a = pyLowerChar c then consumeLitCi as cs else none

/-- Consume a literal, case-sensitively. -/
def consumeLit : List Char → List Char → Option (List Char)
  | [], cs => some cs
  | _ :: _, [] => none
  | a :: as, c :: cs => if a = c then consumeLit as cs else none

/-- Leftmost index of a needle in a haystack (Python `str.find`), or none. -/
def findSub (needle : List Char) : List Char → Option Nat
  | [] => if needle.isEmpty then some 0 else none
  | c :: t =>
    if charsPrefixOf needle (c :: t) then some 0
    else (findSub needle t).map (· + 1)

/-! ## Regex matchers of the Section-B owner parser

The patterns below appear verbatim in `_gb_parse_single_owner`
(src/main.py:437-442) and, character for character, in
`_parse_owner_from_section_b` (src/enricher.py:308-316); one translation
serves both parsers. -/

/-- The tail `\s{2,}(\d{4,5})\s*$` of the GEB/ADR patterns (with `minWs`
2), and the tail of `\s+(\d{4,5})\s*$` (with `minWs` 1): a whitespace
run of at least `minWs`, then a digit run that the greedy `\d{4,5}` can
accept (exactly 4 or 5 digits: a longer run leaves a digit that `\s*$`
rejects under every backtracking), then whitespace to the end. -/
def plzTail (minWs : Nat) (cs : List Char) : Option (List Char) :=
  let m := wsRun cs
  if m < minWs then none
  else
    let r := cs.drop m
    let d := digitRun r
    if (d = 4 || d = 5) && (r.drop d).all pyIsSpace then some (r.take d)
    else none

/-- The lazy group `(.+?)` before `plzTail 2`: characters (`.`, hence not
'\n') move into the capture one at a time until the remaining suffix
matches; at least one character is captured. -/
def gbLazyCapture : List Char → List Char → Option (List Char × List Char)
  | _, [] => none
  | pre, c :: rest =>
    if c = '\n' then none
    else match plzTail 2 rest with
      | some plz => some ((c :: pre).reverse, plz)
      | none => gbLazyCapture (c :: pre) rest

/-- The greedy `\s*` preceding `(.+?)\s{2,}(\d{4,5})\s*$` in the ADR
patterns: the engine first skips the maximal whitespace run and on
failure backtracks one whitespace character at a time.  The argument is
the whitespace count currently tried. -/
def gbWsBackCapture : Nat → List Char → Option (List Char × List Char)
  | 0, cs => gbLazyCapture [] cs
  | w + 1, cs =>
    match gbLazyCapture [] (cs.drop (w + 1)) with
    | some r => some r
    | none => gbWsBackCapture w cs

/-- `\s*(.+?)\s{2,}(\d{4,5})\s*$` from the current position: returns
(address capture, postal code). -/
def gbAdrCapture (cs : List Char) : Option (List Char × List Char) :=
  gbWsBackCapture (wsRun cs) cs

/-- Match `GEB:\s*(\d{4}-\d{2}-\d{2})\s+ADR:\s*(.+?)\s{2,}(\d{4,5})\s*$`
(IGNORECASE) at the start of the list: returns (birthdate, address
capture, postal code).  The date part is fixed-width, so no backtracking
arises inside it; a digit right after a `\d{k}` group makes the required
following separator fail. -/
def adrPatternAt (cs : List Char) : Option (String × List Char × List Char) :=
  match consumeLitCi "GEB:".data cs with
  | none => none
  | some r1 =>
    let r2 := r1.drop (wsRun r1)
    let d4 := r2.take 4
    if d4.length = 4 && d4.all pyIsDigit && r2.get? 4 = some '-' then
      let m1 := (r2.drop 5).take 2
      if m1.length = 2 && m1.all pyIsDigit && r2.get? 7 = some '-' then
        let m2 := (r2.drop 8).take 2
        if m2.length = 2 && m2.all pyIsDigit then
          let r3 := r2.drop 10
          let w := wsRun r3
          if w = 0 then none
          else match consumeLitCi "ADR:".data (r3.drop w) with
            | none => none
            | some r4 =>
              match gbAdrCapture r4 with
              | some (a, plz) => some (⟨d4 ++ '-' :: m1 ++ '-' :: m2⟩, a, plz)
              | none => none
        else none
      else none
    else none

/-- `re.search` for the full GEB/ADR pattern: leftmost matching start. -/
def adrPatternSearch : List Char → Option (String × List Char × List Char)
  | [] => none
  | c :: t =>
    match adrPatternAt (c :: t) with
    | some r => some r
    | none => adrPatternSearch t

/-- Match `ADR:\s*(.+?)\s{2,}(\d{4,5})\s*$` (IGNORECASE) at the start. -/
def adrNoGebAt (cs : List Char) : Option (List Char × List Char) :=
  match consumeLitCi "ADR:".data cs with
  | none => none
  | some r => gbAdrCapture r

/-- `re.search` for the no-birthdate ADR pattern. -/
def adrNoGebSearch : List Char → Option (List Char × List Char)
  | [] => none
  | c :: t =>
    match adrNoGebAt (c :: t) with
    | some r => some r
    | none => adrNoGebSearch t

/-- The group of `\s*(.+)`: skip the maximal whitespace run and capture
the maximal run of non-newline characters; if that capture is empty the
greedy `\s*` backtracks one character at a time.  The first argument is
the whitespace count currently tried. -/
def dotPlusAfterWs : Nat → List Char → Option (List Char)
  | 0, cs =>
    let t := cs.takeWhile (fun c => c ≠ '\n')
    if t.isEmpty then none else some t
  | w + 1, cs =>
    let t := (cs.drop (w + 1)).takeWhile (fun c => c ≠ '\n')
    if t.isEmpty then dotPlusAfterWs w cs else some t

/-- The group of `\s+(.+)`: as `dotPlusAfterWs`, but the whitespace run
must keep at least one character. -/
def dotPlusAfterWs1 : Nat → List Char → Option (List Char)
  | 0, _ => none
  | 1, cs =>
    let t := (cs.drop 1).takeWhile (fun c => c ≠ '\n')
    if t.isEmpty then none else some t
  | w + 2, cs =>
    let t := (cs.drop (w + 2)).takeWhile (fun c => c ≠ '\n')
    if t.isEmpty then dotPlusAfterWs1 (w + 1) cs else some t

/-- Match `ADR:\s*(.+)` (IGNORECASE) at the start. -/
def adrSimpleAt (cs : List Char) : Option (List Char) :=
  match consumeLitCi "ADR:".data cs with
  | none => none
  | some r => dotPlusAfterWs (wsRun r) r

/-- `re.search` for the simple ADR pattern. -/
def adrSimpleSearch : List Char → Option (List Char)
  | [] => none
  | c :: t =>
    match adrSimpleAt (c :: t) with
    | some r => some r
    | none => adrSimpleSearch t

/-- Leftmost match of `\s+(\d{4,5})\s*$` (src/main.py:478): returns the
index where the match (the leading whitespace) starts, and the digits. -/
def plzEndSearch : List Char → Nat → Option (Nat × List Char)
  | [], _ => none
  | c :: t, i =>
    match plzTail 1 (c :: t) with
    | some plz => some (i, plz)
    | none => plzEndSearch t (i + 1)

/-- Regex `^\d` on a stripped line. -/
def startsDigit (s : String) : Bool :=
  match s.data with
  | [] => false
  | c :: _ => pyIsDigit c

/-- Regex `^[a-z]\s+\d` (continuation lines such as "a 7321/2006 ...";
the class `[a-z]` is the literal ASCII range, no IGNORECASE flag). -/
def lowerWsDigitMatch (s : String) : Bool :=
  match s.data with
  | c :: rest =>
    ('a' ≤ c && c ≤ 'z') &&
      (let w := wsRun rest
       w ≠ 0 &&
        (match rest.drop w with
         | d :: _ => pyIsDigit d
         | [] => false))
  | [] => false

/-- Regex `^\*+` (decorative separator lines). -/
def startsStar (s : String) : Bool :=
  match s.data with
  | '*' :: _ => true
  | _ => false

/-- Regex `^Seite\s+\d+\s+von\s+\d+` (IGNORECASE): the page-footer filter
of src/main.py:455 (absent from the enricher.py parser). -/
def seiteMatch (s : String) : Bool :=
  match consumeLitCi "Seite".data s.data with
  | none => false
  | some r1 =>
    let w1 := wsRun r1
    if w1 = 0 then false else
    let r2 := r1.drop w1
    let d1 := digitRun r2
    if d1 = 0 then false else
    let r3 := r2.drop d1
    let w2 := wsRun r3
    if w2 = 0 then false else
    match consumeLitCi "von".data (r3.drop w2) with
    | none => false
    | some r4 =>
      let w3 := wsRun r4
      w3 ≠ 0 && digitRun (r4.drop w3) ≠ 0

/-! ## The two Section-B owner parsers -/

/-- The owner record built per ownership-share entry. -/
structure Owner where
  name : String
  adresse : String
  plz_ort : String
  geb : String
deriving DecidableEq, Repr

/-- The address scan shared by `_gb_parse_single_owner`
(src/main.py:460-484) and `_parse_owner_from_section_b`
(src/enricher.py:350-374), whose bodies coincide: from line `k`, over at
most `fuel` lines (the Python loop runs k from j+1 to min(j+4, len)),
the first line matching one of the three ADR patterns supplies
(geb, adresse, plz_ort). -/
def gb_adr_scan (lines : List String) (k : Nat) : Nat → String × String × String
  | 0 => ("", "", "")
  | fuel + 1 =>
    match lines.get? k with
    | none => ("", "", "")
    | some line =>
      let adr_line := pyStrip line
      if adr_line.data.isEmpty then gb_adr_scan lines (k + 1) fuel
      else
        match adrPatternSearch adr_line.data with
        | some (geb, a, plz) =>
          (geb, pyRStripSet [','] (pyStrip ⟨a⟩), ⟨plz⟩)
        | none =>
          match adrNoGebSearch adr_line.data with
          | some (a, plz) => ("", pyRStripSet [','] (pyStrip ⟨a⟩), ⟨plz⟩)
          | none =>
            match adrSimpleSearch adr_line.data with
            | some a =>
              let adr_raw := pyStrip ⟨a⟩
              match plzEndSearch adr_raw.data 0 with
              | some (i, plz) =>
                ("", pyRStripSet [','] (pyStrip (pyTake i adr_raw)), ⟨plz⟩)
              | none => ("", adr_raw, "")
            | none => gb_adr_scan lines (k + 1) fuel

/-- Per-line acceptance test of the owner-name scan in
`_gb_parse_single_owner` (src/main.py:446-456): the stripped line is
non-empty and none of the skip patterns match (including the
page-footer filter). -/
def gb_name_ok (stripped : String) : Bool :=
  !stripped.data.isEmpty && !startsDigit stripped && !lowerWsDigitMatch stripped &&
    !containsSub "GEB:" (pyUpper stripped) && !containsSub "ADR:" (pyUpper stripped) &&
    !startsStar stripped && !seiteMatch stripped

/-- The name scan of `_gb_parse_single_owner`: from line `j`, over at
most `fuel` lines, the first accepted line becomes the owner name and
the address scan follows it. -/
def gb_owner_scan (lines : List String) (j : Nat) : Nat → Owner
  | 0 => ⟨"", "", "", ""⟩
  | fuel + 1 =>
    match lines.get? j with
    | none => ⟨"", "", "", ""⟩
    | some line =>
      let stripped := pyStrip line
      if gb_name_ok stripped then
        let r := gb_adr_scan lines (j + 1) (min (j + 4) lines.length - (j + 1))
        ⟨stripped, r.2.1, r.2.2, r.1⟩
      else gb_owner_scan lines (j + 1) fuel

/-- `_gb_parse_single_owner` (src/main.py:432-487): the forward scan runs
over the Python range(anteil_idx+1, min(anteil_idx+8, len(lines))). -/
def gb_parse_single_owner (lines : List String) (anteil_idx : Nat) : Owner :=
  gb_owner_scan lines (anteil_idx + 1)
    (min (anteil_idx + 8) lines.length - (anteil_idx + 1))

/-- Indices of the lines containing the ownership-share marker
("ANTEIL:" in the upper-cased line), in order. -/
def anteilIndices (lines : List String) : List Nat :=
  (List.range lines.length).filter (fun i =>
    containsSub "ANTEIL:" (pyUpper ((lines.get? i).getD "")))

/-- Python `" | ".join(items)`. -/
def joinPipe : List String → String
  | [] => ""
  | [x] => x
  | x :: y :: t => x ++ " | " ++ joinPipe (y :: t)

/-- Order-preserving de-duplication by exact owner name (the seen_names
set of src/main.py:522-528). -/
def dedupByName : List Owner → List String → List Owner
  | [], _ => []
  | o :: os, seen =>
    if seen.contains o.name then dedupByName os seen
    else o :: dedupByName os (o.name :: seen)

/-- `_gb_parse_owner` (src/main.py:490-539): every ownership-share entry
is parsed, owners with empty name dropped, the rest de-duplicated by
exact name; the names are joined with " | " and the address fields come
from the first owner. -/
def gb_parse_owner (section_b : String) : Owner :=
  let lines := pySplitlines section_b
  let owners := ((anteilIndices lines).map (gb_parse_single_owner lines)).filter
      (fun o => pyTruthy o.name)
  match dedupByName owners [] with
  | [] => ⟨"", "", "", ""⟩
  | erster :: rest =>
    ⟨joinPipe ((erster :: rest).map Owner.name),
     erster.adresse, erster.plz_ort, erster.geb⟩

/-- Per-line acceptance test of enricher.py's Section-B scan
(src/enricher.py:333-345): the same five skip patterns as main.py but
without the page-footer filter. -/
def enr_name_ok (stripped : String) : Bool :=
  !stripped.data.isEmpty && !startsDigit stripped && !lowerWsDigitMatch stripped &&
    !containsSub "GEB:" (pyUpper stripped) && !containsSub "ADR:" (pyUpper stripped) &&
    !startsStar stripped

/-- The name scan of `_parse_owner_from_section_b`
(src/enricher.py:328-375), identical to `gb_owner_scan` except for the
missing page-footer filter. -/
def enr_owner_scan (lines : List String) (j : Nat) : Nat → Owner
  | 0 => ⟨"", "", "", ""⟩
  | fuel + 1 =>
    match lines.get? j with
    | none => ⟨"", "", "", ""⟩
    | some line =>
      let stripped := pyStrip line
      if enr_name_ok stripped then
        let r := gb_adr_scan lines (j + 1) (min (j + 4) lines.length - (j + 1))
        ⟨stripped, r.2.1, r.2.2, r.1⟩
      else enr_owner_scan lines (j + 1) fuel

/-- `_parse_owner_from_section_b` (src/enricher.py:290-378): only the
first ownership-share marker line is processed (the outer Python loop
breaks unconditionally after it); the scan window and address patterns
are those of main.py. -/
def enr_parse_owner_from_section_b (section_b : String) : Owner :=
  let lines := pySplitlines section_b
  match anteilIndices lines with
  | [] => ⟨"", "", "", ""⟩
  | i :: _ => enr_owner_scan lines (i + 1) (min (i + 8) lines.length - (i + 1))

/-! ## Section extraction and the Section-C creditor parser -/

/-- `_gb_extract_section` (src/main.py:421-429): the text from the
case-insensitively located start marker up to (excluding) the end
marker, searched from behind the start marker; to the end of the text if
the end marker is absent. -/
def gb_extract_section (text start_marker end_marker : String) : String :=
  let lowT := (pyLower text).data
  match findSub (pyLower start_marker).data lowT with
  | none => ""
  | some start =>
    let fromStart := lowT.drop (start + strLen start_marker)
    match findSub (pyLower end_marker).data fromStart with
    | none => ⟨text.data.drop start⟩
    | some off => ⟨(text.data.drop start).take (strLen start_marker + off)⟩

/-- Match `^für\s+(.+)` (IGNORECASE): a Section-C creditor line. -/
def fuerMatch (s : String) : Option String :=
  match consumeLitCi "für".data s.data with
  | none => none
  | some r => (dotPlusAfterWs1 (wsRun r) r).map (fun t => (⟨t⟩ : String))

/-- The suffix `\s+(EUR\s+[\d\.,]+)` of the two claim-amount patterns:
whitespace, then the group capturing the input's own "EUR" text, its
following whitespace and the maximal run of digits, periods and commas
(note: a hyphen is not in the class, so "150.000,--" is captured only up
to and including the comma). -/
def eurGroupAfterWs (cs : List Char) : Option String :=
  let w1 := wsRun cs
  if w1 = 0 then none
  else
    let r2 := cs.drop w1
    match consumeLitCi "EUR".data r2 with
    | none => none
    | some r3 =>
      let w2 := wsRun r3
      if w2 = 0 then none
      else
        let r4 := r3.drop w2
        let run := r4.takeWhile (fun c => pyIsDigit c || c = '.' || c = ',')
        if run.isEmpty then none else some ⟨r2.take 3 ++ r3.take w2 ++ run⟩

/-- `re.search` of `Hereinbringung von\s+(EUR\s+[\d\.,]+)` (IGNORECASE). -/
def betragSearch : List Char → Option String
  | [] => none
  | c :: t =>
    match (consumeLitCi "Hereinbringung von".data (c :: t)).bind eurGroupAfterWs with
    | some r => some r
    | none => betragSearch t

/-- Match `PFANDRECHT\s+Höchstbetrag\s+(EUR\s+[\d\.,]+)` (IGNORECASE) at
the start. -/
def pfandAt (cs : List Char) : Option String :=
  match consumeLitCi "PFANDRECHT".data cs with
  | none => none
  | some r1 =>
    let w1 := wsRun r1
    if w1 = 0 then none
    else
      match consumeLitCi "Höchstbetrag".data (r1.drop w1) with
      | none => none
      | some r2 => eurGroupAfterWs r2

/-- `re.search` of the PFANDRECHT amount pattern. -/
def pfandSearch : List Char → Option String
  | [] => none
  | c :: t =>
    match pfandAt (c :: t) with
    | some r => some r
    | none => pfandSearch t

/-- The creditor/amount fold of `_gb_parse_creditors`
(src/main.py:550-561): one pass over the stripped non-empty lines,
collecting "für ..." creditors longer than five characters, de-duplicated
by exact string, and the first claim-amount match. -/
def gb_creditors_fold : List String → List String → List String → String →
    List String × String
  | [], _, acc, betrag => (acc.reverse, betrag)
  | line :: rest, seen, acc, betrag =>
    let step :=
      match fuerMatch line with
      | some g =>
        let name := pyRStripSet ['.'] (pyStrip g)
        if strLen name > 5 && !seen.contains name then (name :: acc, name :: seen)
        else (acc, seen)
      | none => (acc, seen)
    let betrag2 :=
      if betrag = "" then (betragSearch line.data).map pyStrip |>.getD "" else betrag
    gb_creditors_fold rest step.2 step.1 betrag2

/-- The PFANDRECHT fallback scan of src/main.py:562-567. -/
def gb_pfand_scan : List String → String
  | [] => ""
  | line :: rest =>
    match pfandSearch line.data with
    | some b => pyStrip b
    | none => gb_pfand_scan rest

/-- `_gb_parse_creditors` (src/main.py:542-568).  The body coincides,
character for character in its patterns, with
`_parse_creditors_from_section_c` (src/enricher.py:381-427). -/
def gb_parse_creditors (section_c : String) : List String × String :=
  let lines := ((pySplitlines section_c).map pyStrip).filter pyTruthy
  let r := gb_creditors_fold lines [] [] ""
  (r.1, if r.2 = "" then gb_pfand_scan lines else r.2)

/-! ## The Format-1 text extractor and the enrichment field cleanup -/

/-- The extraction result record (`result` dict of
`gutachten_extract_info`, src/main.py:660-667); the German umlauts of
the source keys are transcribed (eigentümer → eigentuemer, gläubiger →
glaeubiger) since Lean identifiers exclude them. -/
structure Candidate where
  eigentuemer_name : String
  eigentuemer_adresse : String
  eigentuemer_plz_ort : String
  eigentuemer_geb : String
  glaeubiger : List String
  forderung_betrag : String
deriving DecidableEq, Repr

/-- The land-registry (Format 1) part of `gutachten_extract_info`
(src/main.py:669-682): Section B and Section C located with their
marker fallbacks and parsed with the two parsers above.  In the source,
the subsequent "Verpflichtete Partei" block (line 741) runs only when
eigentümer_name is still empty and the "Betreibende Partei" fallback
(line 930) only when gläubiger is still empty; the theorems below
evaluate this function only at inputs where both are non-empty, so the
guarded fallbacks cannot fire there. -/
def gutachten_extract_info_fmt1 (full_text : String) : Candidate :=
  let sec_b0 := gb_extract_section full_text "** B ***" "** C ***"
  let sec_b := if sec_b0 = "" then gb_extract_section full_text "** B **" "** C **" else sec_b0
  let owner := if sec_b ≠ "" then gb_parse_owner sec_b else ⟨"", "", "", ""⟩
  let sec_c0 := gb_extract_section full_text "** C ***" "** HINWEIS ***"
  let sec_c := if sec_c0 = "" then gb_extract_section full_text "** C **" "HINWEIS" else sec_c0
  let glb := if sec_c ≠ "" then gb_parse_creditors sec_c else ([], "")
  ⟨owner.name, owner.adresse, owner.plz_ort, owner.geb, glb.1, glb.2⟩

/-! ## The candidate field cleaners -/

/-- The placeholder set INVALID_NAMES (src/main.py:1152 and 2504). -/
def invalidNames : List String :=
  ["nicht angegeben", "unbekannt", "n/a", "none", "null", "-", "–"]

/-- Regex `^[)\\]}>]` of src/main.py:1156.  In this raw pattern the
character class closes at the first unescaped closing bracket, so the
class holds only the parenthesis and the backslash, and the three
characters brace, greater-than, bracket are literals that must follow
(checked against CPython's re). -/
def nameBracketArtifactMain (s : String) : Bool :=
  match s.data with
  | c :: rest => (c = ')' || c = '\\') && charsPrefixOf "\x7d>]".data rest
  | [] => false

/-- Regex `^[)\\\]}>]` of src/main.py:2507 (the vision-path copy): here
the escaped closing bracket keeps all five characters inside the class. -/
def nameBracketArtifactVision (s : String) : Bool :=
  match s.data with
  | c :: _ => c = ')' || c = '\\' || c = ']' || c = '}' || c = '>'
  | [] => false

/-- Python `name.rstrip().endswith('-')`. -/
def endsWithHyphen (s : String) : Bool :=
  match (pyRStrip s).data.getLast? with
  | some '-' => true
  | _ => false

/-- `_clean_extracted_name` as defined inside
`gutachten_enrich_notion_page` (src/main.py:1147-1161). -/
def clean_extracted_name (name : String) : String :=
  if !pyTruthy name then ""
  else if invalidNames.contains (pyLower (pyStrip name)) then ""
  else if nameBracketArtifactMain name || endsWithHyphen name then ""
  else if !pyAnyAlpha name then ""
  else name

/-- `_clean_extracted_name` as redefined inside `notion_enrich_gescannte`
(src/main.py:2500-2511): identical body except for its bracket-artifact
pattern. -/
def clean_extracted_name_vision (name : String) : String :=
  if !pyTruthy name then ""
  else if invalidNames.contains (pyLower (pyStrip name)) then ""
  else if nameBracketArtifactVision name || endsWithHyphen name then ""
  else if !pyAnyAlpha name then ""
  else name

/-- Does `,?\s*Telefon` (IGNORECASE) match at this position?  The
optional comma is tried first (greedily); without it the whitespace run
starts at the position itself. -/
def telefonAt (cs : List Char) : Bool :=
  (match cs with
   | ',' :: r => (consumeLitCi "Telefon".data (r.drop (wsRun r))).isSome
   | _ => false)
  || (consumeLitCi "Telefon".data (cs.drop (wsRun cs))).isSome

/-- `re.sub(r',?\s*Telefon.*$', '', adr)` for the single-line address
strings of this pipeline: cut at the leftmost match, which `.*$` extends
to the end of the string. -/
def telefonCut : List Char → List Char
  | [] => []
  | c :: t => if telefonAt (c :: t) then [] else c :: telefonCut t

/-- ASCII letter test for the class `[A-Za-z]`. -/
def isAsciiLetter (c : Char) : Bool :=
  ('A' ≤ c && c ≤ 'Z') || ('a' ≤ c && c ≤ 'z')

/-- Smallest index `j ≥ i` (the second argument tracks `i`) holding a
comma that still has at least one character after it; a comma as the
very last character cannot complete `,\s*(.+)`. -/
def commaScan : List Char → Nat → Option Nat
  | [], _ => none
  | [_], _ => none
  | c :: d :: t, j => if c = ',' then some j else commaScan (d :: t) (j + 1)

/-- Largest usable comma index in [1, q0) (inside the first non-space
token), for the backtracking of the greedy `\S+`. -/
def lastCommaBelow (cs : List Char) (q0 : Nat) : Option Nat :=
  ((List.range q0).filter (fun j =>
    1 ≤ j && cs.get? j = some ',' && j + 1 < cs.length)).getLast?

/-- The part of `^(?:[A-Za-z]-?)?\d{4,5}\s+\S+.*?,\s*(.+)`
(src/main.py:1171) after the optional letter prefix, starting at the
postal digits.  After the digits and whitespace, the greedy `\S+` first
swallows the whole first non-space token; the lazy `.*?,` then finds
the first usable comma at or after the token end, and only if none
exists does `\S+` backtrack into the token, reaching the last usable
comma inside it.  After the comma, the greedy `\s*` skips the
whitespace run unless that leaves nothing for `(.+)`, in which case it
backtracks to leave the final character (checked against CPython's re). -/
def ortVorStrasseAux (cs : List Char) : Option String :=
  let d := digitRun cs
  if d = 4 || d = 5 then
    let r1 := cs.drop d
    let w := wsRun r1
    if w = 0 then none
    else
      let rest := r1.drop w
      let q0 := (rest.takeWhile (fun c => !pyIsSpace c)).length
      if q0 = 0 then none
      else
        let comma := match commaScan (rest.drop q0) q0 with
          | some c => some c
          | none => lastCommaBelow rest q0
        match comma with
        | none => none
        | some c =>
          let after := rest.drop (c + 1)
          let w2 := wsRun after
          some ⟨if w2 < after.length then after.drop w2
                else after.drop (after.length - 1)⟩
  else none

/-- `re.match` of `^(?:[A-Za-z]-?)?\d{4,5}\s+\S+.*?,\s*(.+)` : the
optional prefix group is tried greedily (hyphen variant first), then
without the group. -/
def ortVorStrasseMatch (s : String) : Option String :=
  match s.data with
  | [] => none
  | c :: rest =>
    if isAsciiLetter c then
      match rest with
      | '-' :: r2 =>
        (ortVorStrasseAux r2).orElse (fun _ =>
          (ortVorStrasseAux rest).orElse (fun _ => ortVorStrasseAux (c :: rest)))
      | _ => (ortVorStrasseAux rest).orElse (fun _ => ortVorStrasseAux (c :: rest))
    else ortVorStrasseAux (c :: rest)

/-- The class `[A-ZÄÖÜ]`. -/
def upperCityChar (c : Char) : Bool :=
  ('A' ≤ c && c ≤ 'Z') || c = 'Ä' || c = 'Ö' || c = 'Ü'

/-- The class `[a-zäöüß]`. -/
def lowerCityChar (c : Char) : Bool :=
  ('a' ≤ c && c ≤ 'z') || c = 'ä' || c = 'ö' || c = 'ü' || c = 'ß'

/-- Does `,\s*[A-ZÄÖÜ][a-zäöüß]+$` match at this suffix, i.e. is the
whole suffix a comma, whitespace, and one capitalized word running to
the very end of the string? -/
def citySuffixAt : List Char → Bool
  | ',' :: r =>
    (match r.drop (wsRun r) with
     | c :: tail => upperCityChar c && !tail.isEmpty && tail.all lowerCityChar
     | [] => false)
  | _ => false

/-- `re.sub(r',\s*[A-ZÄÖÜ][a-zäöüß]+$', '', adr)`: cut at the leftmost
(and, the match running to the end, only) occurrence. -/
def citySuffixCut : List Char → List Char
  | [] => []
  | c :: t => if citySuffixAt (c :: t) then [] else c :: citySuffixCut t

/-- `_clean_extracted_adresse` as defined inside
`gutachten_enrich_notion_page` (src/main.py:1163-1176): strip a
trailing "Telefon ..." fragment, replace a leading
postal-code-plus-locality by what follows its comma, strip a trailing
bare city name.  The copy inside `notion_enrich_gescannte`
(src/main.py:2513-2521) has a character-identical body. -/
def clean_extracted_adresse (adr : String) : String :=
  if !pyTruthy adr then ""
  else
    let a1 := pyRStripSet [','] (pyStrip ⟨telefonCut adr.data⟩)
    let a2 := match ortVorStrasseMatch a1 with
      | some g => pyStrip g
      | none => a1
    pyStrip ⟨citySuffixCut a2.data⟩

/-- The completeness signal of `gutachten_enrich_notion_page`
(src/main.py:1178 and 1202): `has_owner = bool(name_clean or
adr_clean)`, computed on the cleaned fields. -/
def enrich_has_owner (name adr : String) : Bool :=
  pyTruthy (clean_extracted_name name) || pyTruthy (clean_extracted_adresse adr)

/-- The success signal of enricher.py's main loop (src/enricher.py:605),
computed on the raw, uncleaned extraction fields. -/
def enr_main_has_owner (name adr : String) : Bool :=
  pyTruthy name || pyTruthy adr

/-- Does `\s*\(FN\s*\d+\w*\)` (IGNORECASE) match at this position?  If
so, return the remaining characters after the match. -/
def fnParenAt (cs : List Char) : Option (List Char) :=
  match cs.drop (wsRun cs) with
  | '(' :: r1 =>
    (match consumeLitCi "FN".data r1 with
     | none => none
     | some r2 =>
       let r3 := r2.drop (wsRun r2)
       let d := digitRun r3
       if d = 0 then none
       else
         match (r3.drop d).dropWhile pyIsWordChar with
         | ')' :: r5 => some r5
         | _ => none)
  | _ => none

/-- `re.sub` of the FN pattern over the whole string (all occurrences,
scanning resuming after each replacement); the fuel is the input
length, which bounds the recursion since every step strictly shortens
the list. -/
def fnParenCutF : Nat → List Char → List Char
  | 0, cs => cs
  | _ + 1, [] => []
  | fuel + 1, c :: t =>
    match fnParenAt (c :: t) with
    | some rest => fnParenCutF fuel rest
    | none => c :: fnParenCutF fuel t

/-- `_gl_normalize` (src/main.py:968-970): strip parenthesised FN
registry numbers, for the duplicate comparison of creditors. -/
def gl_normalize (name : String) : String :=
  pyStrip ⟨fnParenCutF name.data.length name.data⟩

/-! ## The pursuing-party creditor filter (src/main.py:967-1042) -/

/-- The tail alternatives of the court-officer pattern
`(Gerichtsvollzieher|Rechtsanwalt|RA\s|im\s+Zuge)` (IGNORECASE). -/
def glOfficerTail (cs : List Char) : Bool :=
  (consumeLitCi "Gerichtsvollzieher".data cs).isSome ||
  (consumeLitCi "Rechtsanwalt".data cs).isSome ||
  (match consumeLitCi "RA".data cs with
   | some (c :: _) => pyIsSpace c
   | _ => false) ||
  (match consumeLitCi "im".data cs with
   | some r =>
     let w := wsRun r
     w ≠ 0 && (consumeLitCi "Zuge".data (r.drop w)).isSome
   | none => false)

/-- Regex `^(&\s*)?(Gerichtsvollzieher|Rechtsanwalt|RA\s|im\s+Zuge)`
(IGNORECASE) of src/main.py:990. -/
def glOfficerMatch (s : String) : Bool :=
  (match s.data with
   | '&' :: r => glOfficerTail (r.drop (wsRun r))
   | _ => false)
  || glOfficerTail s.data

/-- The separators of the class `[-./]`. -/
def dateSep (c : Char) : Bool := c = '-' || c = '.' || c = '/'

/-- The separators of the class `[.\-]`. -/
def dotDashSep (c : Char) : Bool := c = '.' || c = '-'

/-- The tail `\d{1,2}\b`: a one- or two-digit run followed by a word
boundary (a longer run makes both greedy choices hit a digit). -/
def dayTail (cs : List Char) : Bool :=
  let e := digitRun cs
  (e = 1 || e = 2) &&
    (match cs.drop e with
     | [] => true
     | c :: _ => !pyIsWordChar c)

/-- The tail `\d{1,2}[-./]\d{1,2}\b` with the greedy `{1,2}` trying two
digits before one. -/
def dayAt (cs : List Char) : Bool :=
  let e := digitRun cs
  e ≠ 0 &&
    ((e ≥ 2 &&
      (match cs.drop 2 with
       | s :: r => dateSep s && dayTail r
       | [] => false)) ||
     (match cs.drop 1 with
      | s :: r => dateSep s && dayTail r
      | [] => false))

/-- Match `(19|18)\d{2}[-./]\d{1,2}[-./]\d{1,2}\b` at this position (the
leading `\b` is checked by the caller). -/
def yearDateAt (cs : List Char) : Bool :=
  match cs with
  | a :: b :: rest =>
    a = '1' && (b = '9' || b = '8') &&
      (let d1 := rest.take 2
       d1.length = 2 && d1.all pyIsDigit &&
         (match rest.drop 2 with
          | s1 :: r1 => dateSep s1 && dayAt r1
          | [] => false))
  | _ => false

/-- Match `geb\s+\d{4}[-./]\d{2}[-./]\d{2}\b` (IGNORECASE) at this
position (the leading `\b` is checked by the caller). -/
def gebIsoAt (cs : List Char) : Bool :=
  match consumeLitCi "geb".data cs with
  | none => false
  | some r =>
    let w := wsRun r
    w ≠ 0 &&
      (let r2 := r.drop w
       let d1 := r2.take 4
       d1.length = 4 && d1.all pyIsDigit &&
         (match r2.drop 4 with
          | s1 :: rest1 =>
            dateSep s1 &&
              (let d2 := rest1.take 2
               d2.length = 2 && d2.all pyIsDigit &&
                 (match rest1.drop 2 with
                  | s2 :: rest2 =>
                    dateSep s2 &&
                      (let d3 := rest2.take 2
                       d3.length = 2 && d3.all pyIsDigit &&
                         (match rest2.drop 2 with
                          | [] => true
                          | c :: _ => !pyIsWordChar c))
                  | [] => false))
          | [] => false))

/-- The tail `\d{1,2}[.\-]\d{2,4}` (the final run needs at least two
digits; the greedy `{2,4}` has nothing after it to fail). -/
def gebDotDay2 (cs : List Char) : Bool :=
  let e := digitRun cs
  e ≠ 0 &&
    ((e ≥ 2 &&
      (match cs.drop 2 with
       | s :: r => dotDashSep s && digitRun r ≥ 2
       | [] => false)) ||
     (match cs.drop 1 with
      | s :: r => dotDashSep s && digitRun r ≥ 2
      | [] => false))

/-- Match `geb\.?\s*\d{1,2}[.\-]\d{1,2}[.\-]\d{2,4}` (IGNORECASE) at
this position (the leading `\b` is checked by the caller; taking the
optional dot can never hurt, as the following `\s*\d` rejects a dot). -/
def gebDotAt (cs : List Char) : Bool :=
  match consumeLitCi "geb".data cs with
  | none => false
  | some r =>
    let r1 := match r with
      | '.' :: t => t
      | _ => r
    let r2 := r1.drop (wsRun r1)
    let e := digitRun r2
    e ≠ 0 &&
      ((e ≥ 2 &&
        (match r2.drop 2 with
         | s :: r3 => dotDashSep s && gebDotDay2 r3
         | [] => false)) ||
       (match r2.drop 1 with
        | s :: r3 => dotDashSep s && gebDotDay2 r3
        | [] => false))

/-- `re.search` for a pattern whose first character is a word character
and that begins with `\b`: try each position whose predecessor is not a
word character. -/
def searchWithBoundary (atMatch : List Char → Bool) :
    Option Char → List Char → Bool
  | _, [] => false
  | prev, c :: t =>
    (pyIsWordChar c &&
      (match prev with
       | none => true
       | some p => !pyIsWordChar p) && atMatch (c :: t))
    || searchWithBoundary atMatch (some c) t

/-- `re.search(r'\b(19|18)\d{2}[-./]\d{1,2}[-./]\d{1,2}\b', s)`
(src/main.py:997 and 1025). -/
def yearDateSearch (s : String) : Bool := searchWithBoundary yearDateAt none s.data

/-- `re.search(r'\bgeb\s+\d{4}[-./]\d{2}[-./]\d{2}\b', s, re.I)`
(src/main.py:995 and 1029). -/
def gebIsoSearch (s : String) : Bool := searchWithBoundary gebIsoAt none s.data

/-- `re.search(r'\bgeb\.?\s*\d{1,2}[.\-]\d{1,2}[.\-]\d{2,4}', s, re.I)`
(src/main.py:1027). -/
def gebDotSearch (s : String) : Bool := searchWithBoundary gebDotAt none s.data

/-- `_gl_segment_ok` (src/main.py:987-999). -/
def gl_segment_ok (p : String) : Bool :=
  if !pyTruthy p || strLen p ≤ 3 then false
  else if glOfficerMatch p then false
  else if !pyAnyAlpha p then false
  else if gebIsoSearch p then false
  else if yearDateSearch p then false
  else true

/-- Regex `^EG\s+der\s+EZ\s+\d+\s+KG\s+\d+` (IGNORECASE) of
src/main.py:1006. -/
def egDerEzMatch (s : String) : Bool :=
  match consumeLitCi "EG".data s.data with
  | none => false
  | some r1 =>
    let w1 := wsRun r1
    w1 ≠ 0 &&
    (match consumeLitCi "der".data (r1.drop w1) with
     | none => false
     | some r2 =>
       let w2 := wsRun r2
       w2 ≠ 0 &&
       (match consumeLitCi "EZ".data (r2.drop w2) with
        | none => false
        | some r3 =>
          let w3 := wsRun r3
          w3 ≠ 0 &&
          (let r4 := r3.drop w3
           let d1 := digitRun r4
           d1 ≠ 0 &&
           (let r5 := r4.drop d1
            let w4 := wsRun r5
            w4 ≠ 0 &&
            (match consumeLitCi "KG".data (r5.drop w4) with
             | none => false
             | some r6 =>
               let w5 := wsRun r6
               w5 ≠ 0 && digitRun (r6.drop w5) ≠ 0)))))

/-- Regex `^(Eigentümergemeinschaft|Wohnungseigentums?gem\.?)`
(IGNORECASE) of src/main.py:1009 (as a boolean the trailing optional
dot is irrelevant). -/
def eigentuemerGemMatch (s : String) : Bool :=
  (consumeLitCi "Eigentümergemeinschaft".data s.data).isSome ||
  (match consumeLitCi "Wohnungseigentum".data s.data with
   | none => false
   | some r =>
     let r1 := match consumeLitCi "s".data r with
       | some t => t
       | none => r
     (consumeLitCi "gem".data r1).isSome)

/-- Word boundary after a consumed prefix: end of string or a non-word
character. -/
def bndAfter : List Char → Bool
  | [] => true
  | c :: _ => !pyIsWordChar c

/-- Regex `^(WEG|EG[T]?|EigG)\b` (IGNORECASE) of src/main.py:1013. -/
def wegMatch (s : String) : Bool :=
  (match consumeLitCi "WEG".data s.data with
   | some r => bndAfter r
   | none => false) ||
  (match consumeLitCi "EGT".data s.data with
   | some r => bndAfter r
   | none => false) ||
  (match consumeLitCi "EG".data s.data with
   | some r => bndAfter r
   | none => false) ||
  (match consumeLitCi "EigG".data s.data with
   | some r => bndAfter r
   | none => false)

/-- Regex `^Gemäß\s+Aktenzeichen` (IGNORECASE) of src/main.py:1016. -/
def gemaessAktenzeichenMatch (s : String) : Bool :=
  match consumeLitCi "Gemäß".data s.data with
  | none => false
  | some r =>
    let w := wsRun r
    w ≠ 0 && (consumeLitCi "Aktenzeichen".data (r.drop w)).isSome

/-- The hospitality filter
`(Mountain Resort|Hotel|Gasthof|Pension|Wirtshaus|Betreiber\s+ROJ)`
(IGNORECASE, `re.search`) of src/main.py:1032. -/
def hotelSearchAt (cs : List Char) : Bool :=
  (consumeLitCi "Mountain Resort".data cs).isSome ||
  (consumeLitCi "Hotel".data cs).isSome ||
  (consumeLitCi "Gasthof".data cs).isSome ||
  (consumeLitCi "Pension".data cs).isSome ||
  (consumeLitCi "Wirtshaus".data cs).isSome ||
  (match consumeLitCi "Betreiber".data cs with
   | some r =>
     let w := wsRun r
     w ≠ 0 && (consumeLitCi "ROJ".data (r.drop w)).isSome
   | none => false)

/-- Positionwise search for the hospitality filter. -/
def hotelSearchList : List Char → Bool
  | [] => false
  | c :: t => hotelSearchAt (c :: t) || hotelSearchList t

def hotelSearch (s : String) : Bool := hotelSearchList s.data

/-- The per-candidate cleanup and filter chain of the pursuing-party
("Betreibende Partei") creditor path (src/main.py:974-1034): the
candidate is trimmed, split at pipes with bad segments dropped,
rejoined, and rejected by the owner-association, file-reference,
birthdate and hospitality filters; returns the cleaned creditor or none
when filtered out. -/
def gl_clean_candidate (gl0 : String) : Option String :=
  let gl1 := pyStrip (pyLStripSet [':', ' '] gl0)
  let gl2 := pyStrip (pyRStripSet [' ', '|'] gl1)
  if !pyTruthy gl2 || strLen gl2 < 3 then none
  else
    let parts := ((pySplitChar '|' gl2).map pyStrip).map
        (fun p => pyStrip (pyLStripSet [':', ' '] p))
    let parts2 := parts.filter gl_segment_ok
    let gl3 := pyStripSet [' ', '|'] (joinPipe parts2)
    if !pyTruthy gl3 || strLen gl3 < 3 then none
    else if egDerEzMatch gl3 then none
    else if eigentuemerGemMatch gl3 then none
    else if wegMatch gl3 then none
    else if gemaessAktenzeichenMatch gl3 then none
    else if !pyAnyAlpha gl3 then none
    else if yearDateSearch gl3 then none
    else if gebDotSearch gl3 then none
    else if gebIsoSearch gl3 then none
    else if hotelSearch gl3 then none
    else some gl3

/-- The de-duplication fold of the pursuing-party creditor path
(src/main.py:1036-1039): a cleaned candidate is appended exactly when
its FN-normalized form has not been seen. -/
def gl_dedup_fold : List String → List String → List String → List String
  | [], _, out => out.reverse
  | cand :: rest, seen, out =>
    match gl_clean_candidate cand with
    | none => gl_dedup_fold rest seen out
    | some gl =>
      let norm := gl_normalize gl
      if seen.contains norm then gl_dedup_fold rest seen out
      else gl_dedup_fold rest (norm :: seen) (gl :: out)

/-- The final creditor list (`gl_final`) built from the collected
pursuing-party candidates (src/main.py:972-1039). -/
def gl_final (kandidaten : List String) : List String := gl_dedup_fold kandidaten [] []

/-! ## The record-state model and the batch-pass selection predicates -/

/-- The slice of a store record that the batch passes read and write:
analysis flag ("Gutachten analysiert?"), workflow phase, archive flag,
detail-page URL (empty string for a missing URL), diagnostic note, and
the extraction fields; rich-text properties are modelled as their
concatenated text content. -/
structure AuctionRecord where
  analysiert : Bool
  phase : String
  archiviert : Bool
  link : String
  notizen : String
  verpflichtende : String
  zustellAdresse : String
  zustellPlzOrt : String
  betreibende : String
deriving DecidableEq, Repr

/-- The protected workflow phases (GESCHUETZT_PHASEN, identical at
src/main.py:1792-1800, 2132-2140, 2352-2360 and 1888-1896). -/
def geschuetztPhasen : List String :=
  ["🔎 In Prüfung", "❌ Nicht relevant", "✅ Relevant – Brief vorbereiten",
   "📩 Brief versendet", "📊 Gutachten analysiert", "✅ Gekauft", "🗄 Archiviert"]

/-- The selection predicate of `notion_enrich_gutachten`
(src/main.py:1822-1844): unprotected phase, URL present, not yet
analysed. -/
def enrich_selects (r : AuctionRecord) : Bool :=
  !geschuetztPhasen.contains r.phase && pyTruthy r.link && !r.analysiert

/-- The reset-selection predicate of `notion_qualitaetscheck`
(src/main.py:2148-2200): an analysed, unprotected, unarchived record
with a URL, whose lower-cased note carries none of the three
quality-check skip markers and whose owner and address fields are both
empty (after stripping), has its analysis flag reset to false. -/
def qc_note_skip (notizen : String) : Bool :=
  containsSub "gescannt" (pyLower notizen) || containsSub "kein pdf" (pyLower notizen) ||
    containsSub "nicht lesbar" (pyLower notizen)

def qualitaetscheck_resets (r : AuctionRecord) : Bool :=
  r.analysiert && !geschuetztPhasen.contains r.phase && !r.archiviert &&
    pyTruthy r.link && !qc_note_skip r.notizen &&
    !pyTruthy (pyStrip r.verpflichtende) && !pyTruthy (pyStrip r.zustellAdresse)

/-- The scanned-document test of `notion_enrich_gescannte`
(src/main.py:2412-2417). -/
def ist_gescannt (notizen : String) : Bool :=
  containsSub "gescannt" (pyLower notizen) || containsSub "kein text lesbar" (pyLower notizen) ||
    containsSub "via gpt-4o vision" (pyLower notizen) || containsSub "unleserlich" (pyLower notizen)

/-- The selection predicate of the vision pass `notion_enrich_gescannte`
(src/main.py:2382-2438): analysed, unprotected, unarchived, with a URL,
marked scanned, and with an empty owner field.  (The database-parent
check of line 2384 concerns the store partition, not the record
state.) -/
def vision_selects (r : AuctionRecord) : Bool :=
  r.analysiert && !geschuetztPhasen.contains r.phase && !r.archiviert &&
    pyTruthy r.link && ist_gescannt r.notizen && !pyTruthy (pyStrip r.verpflichtende)

/-- The court-name pattern GERICHT_RE
`^(BG |Bezirksgericht |LG |Landesgericht |HG |Handelsgericht )`
(IGNORECASE, src/main.py:1899-1902). -/
def gerichtMatch (s : String) : Bool :=
  ["BG ", "Bezirksgericht ", "LG ", "Landesgericht ", "HG ", "Handelsgericht "].any
    (fun p => (consumeLitCi p.data s.data).isSome)

/-- First-pass selection of the repair pass
`notion_reset_falsche_verpflichtende` (src/main.py:1909-1926):
unprotected phase and a non-empty owner field matching the court
pattern; the selected record gets its owner field cleared and its
analysis flag reset. -/
def repair_court_selects (r : AuctionRecord) : Bool :=
  !geschuetztPhasen.contains r.phase && pyTruthy (pyStrip r.verpflichtende) &&
    gerichtMatch (pyStrip r.verpflichtende)

/-- The four case-sensitive note markers of the repair pass
(src/main.py:1951-1953), checked in the stripped note text. -/
def repair_note_skip (notizen : String) : Bool :=
  containsSub "Kein PDF" (pyStrip notizen) || containsSub "gescannt" (pyStrip notizen) ||
    containsSub "nicht lesbar" (pyStrip notizen) ||
    containsSub "kein Eigentümer" (pyStrip notizen)

/-- Second-pass selection of the repair pass (src/main.py:1933-1958):
unprotected, analysed, empty address, a note (stripped) containing none
of the four case-sensitive markers, a URL, and not already selected by
the first pass; the selected record has its analysis flag reset. -/
def repair_incomplete_selects (r : AuctionRecord) : Bool :=
  !geschuetztPhasen.contains r.phase && r.analysiert &&
    !pyTruthy (pyStrip r.zustellAdresse) && !repair_note_skip r.notizen &&
    pyTruthy r.link && !repair_court_selects r

/-- The write performed by `gutachten_enrich_notion_page` when the
notice page has no PDF attachment (src/main.py:1074-1084): the analysis
flag is set and the note replaced by the fixed no-attachment text;
nothing else is written. -/
def no_attachment_update (r : AuctionRecord) : AuctionRecord :=
  { r with analysiert := true, notizen := "Kein PDF auf Edikt-Seite verfügbar" }

/-- Match one branch `\(LIT[^)]*\)` of the scanned-marker pattern at
this position (case-sensitive): the literal, then non-parenthesis
characters, then the closing parenthesis; returns the rest. -/
def parenMarkerAt (lit : String) (cs : List Char) : Option (List Char) :=
  match consumeLit lit.data cs with
  | none => none
  | some r =>
    match r.dropWhile (fun c => c ≠ ')') with
    | ')' :: r2 => some r2
    | _ => none

/-- `re.sub(r'\(Kein Text lesbar[^)]*\)|\(Via GPT-4o Vision[^)]*\)', '', s)`
(src/main.py:2480-2483): delete every occurrence of either marker,
scanning left to right; the fuel is the input length, which bounds the
recursion since every step strictly shortens the list. -/
def scannedMarkerCutF : Nat → List Char → List Char
  | 0, cs => cs
  | _ + 1, [] => []
  | fuel + 1, c :: t =>
    match parenMarkerAt "(Kein Text lesbar" (c :: t) with
    | some rest => scannedMarkerCutF fuel rest
    | none =>
      match parenMarkerAt "(Via GPT-4o Vision" (c :: t) with
      | some rest => scannedMarkerCutF fuel rest
      | none => c :: scannedMarkerCutF fuel t

/-- The terminal-note rewrite of the vision pass (src/main.py:2478-2484):
strip the record's note, delete the scanned-document markers, strip
again, and append the permanently-unreadable marker. -/
def vision_terminal_note (notizen : String) : String :=
  let alt := pyStrip notizen
  let neu := pyStrip ⟨scannedMarkerCutF alt.data.length alt.data⟩
  neu ++ "\n(Endgültig unleserlich – kein Eigentümer auffindbar)"

/-- The write performed by the vision pass when the vision tier also
finds no owner (src/main.py:2475-2493): only the note is rewritten, to
the terminal permanently-unreadable marker (truncated to 2000
characters); the analysis flag and every extraction field stay. -/
def vision_terminal_update (r : AuctionRecord) : AuctionRecord :=
  { r with notizen := pyTake 2000 (vision_terminal_note r.notizen) }

/-! ## The Tier-2 language-model extractor -/

/-- A Python JSON value as returned by `json.loads`. -/
inductive PyJson where
  | null
  | bool (b : Bool)
  | num (n : Int)
  | str (s : String)
  | arr (xs : List PyJson)
  | obj (kvs : List (String × PyJson))
deriving Repr

/-- Outcome of the guarded block of `gutachten_extract_info_llm`
(src/main.py:608-624): either an exception was raised inside the `try`
(transport failure, or `json.loads` rejecting the response) — all of
these are caught and the function returns the empty dict — or the
response parsed to a JSON value. -/
inductive LlmTry where
  | exn
  | ok (data : PyJson)

/-- The exception that can escape the function (an attribute lookup on a
non-dict value). -/
inductive PyExn where
  | attributeError
deriving DecidableEq, Repr

mutual

/-- Python `repr()` of a JSON value as used by `str()` on containers
(string-escape details inside container reprs are elided; no theorem
below evaluates those branches). -/
def pyReprJson : PyJson → String
  | .null => "None"
  | .bool true => "True"
  | .bool false => "False"
  | .num n => toString n
  | .str s => "\u0027" ++ s ++ "\u0027"
  | .arr xs => "[" ++ pyReprJoin xs ++ "]"
  | .obj kvs => "\x7b" ++ pyReprPairsJoin kvs ++ "\x7d"

/-- Comma-joined reprs of list elements. -/
def pyReprJoin : List PyJson → String
  | [] => ""
  | [x] => pyReprJson x
  | x :: y :: t => pyReprJson x ++ ", " ++ pyReprJoin (y :: t)

/-- Comma-joined reprs of dict items. -/
def pyReprPairsJoin : List (String × PyJson) → String
  | [] => ""
  | [(k, v)] => "\u0027" ++ k ++ "\u0027: " ++ pyReprJson v
  | (k, v) :: y :: t =>
    "\u0027" ++ k ++ "\u0027: " ++ pyReprJson v ++ ", " ++ pyReprPairsJoin (y :: t)

end

/-- Python `str()` of a JSON value. -/
def pyStrOfJson : PyJson → String
  | .str s => s
  | j => pyReprJson j

/-- Python truthiness of a JSON value. -/
def pyTruthyJson : PyJson → Bool
  | .null => false
  | .bool b => b
  | .num n => n ≠ 0
  | .str s => pyTruthy s
  | .arr xs => !xs.isEmpty
  | .obj kvs => !kvs.isEmpty

/-- The helper `_str` (src/main.py:626-627):
`str(val).strip() if val else ""`. -/
def llm_str_field (v : PyJson) : String :=
  if pyTruthyJson v then pyStrip (pyStrOfJson v) else ""

/-- The helper `_lst` (src/main.py:629-634). -/
def llm_lst_field (v : PyJson) : List String :=
  match v with
  | .arr xs =>
    (xs.filter (fun x => pyTruthyJson x && pyTruthy (pyStrip (pyStrOfJson x)))).map
      (fun x => pyStrip (pyStrOfJson x))
  | .str s => if pyTruthy (pyStrip s) then [pyStrip s] else []
  | _ => []

/-- Python `data.get(key)`: defined on dicts (default None); on any
other value the attribute lookup raises AttributeError — and in the
source these calls sit outside the try/except (src/main.py:636-643). -/
def pyGet (j : PyJson) (k : String) : Except PyExn PyJson :=
  match j with
  | .obj kvs => .ok (((kvs.find? (fun kv => kv.1 = k)).map Prod.snd).getD .null)
  | _ => .error .attributeError

/-- The character budget sent to the model (src/main.py:585:
`full_text[:12000]`). -/
def llm_snippet (full_text : String) : String := pyTake 12000 full_text

/-- `gutachten_extract_info_llm` (src/main.py:571-643), the service call
abstracted as an oracle from the sent text to the outcome of the
guarded block.  (The early return for a missing API key, line 580,
concerns an unconfigured service and is outside this model.)  An
in-`try` exception yields the empty dict, modelled as `none`; a parsed
value is then destructured by five `data.get` calls running after the
`try`, which raise on a non-dict value. -/
def gutachten_extract_info_llm (llm : String → LlmTry) (full_text : String) :
    Except PyExn (Option Candidate) :=
  let snippet := llm_snippet full_text
  match llm snippet with
  | .exn => .ok none
  | .ok data => do
    let n ← pyGet data "eigentümer_name"
    let a ← pyGet data "eigentümer_adresse"
    let p ← pyGet data "eigentümer_plz_ort"
    let g ← pyGet data "gläubiger"
    let f ← pyGet data "forderung_betrag"
    .ok (some ⟨llm_str_field n, llm_str_field a, llm_str_field p, "",
               llm_lst_field g, llm_str_field f⟩)

/-! ## Helper lemmas -/

theorem pyTruthy_iff (s : String) : pyTruthy s = true ↔ s ≠ "" := by
  obtain ⟨l⟩ := s
  cases l <;> simp [pyTruthy, String.ext_iff]

theorem clean_name_cases (name : String) :
    clean_extracted_name name = "" ∨ clean_extracted_name name = name := by
  unfold clean_extracted_name
  split_ifs <;> simp

theorem clean_name_vision_cases (name : String) :
    clean_extracted_name_vision name = "" ∨ clean_extracted_name_vision name = name := by
  unfold clean_extracted_name_vision
  split_ifs <;> simp

theorem clean_name_empty : clean_extracted_name "" = "" := rfl

/-! ## Claim theorems -/

set_option maxRecDepth 16384

/-- C10: the owner-name cleanup is accept-or-reject only — for every
input string, each of the two `_clean_extracted_name` copies
(src/main.py:1147-1161 and 2500-2511) returns either the empty string
or the input unchanged, never a modified non-empty name. -/
theorem claim_C10_name_cleaner_accept_or_reject (name : String) :
    (clean_extracted_name name = "" ∨ clean_extracted_name name = name) ∧
    (clean_extracted_name_vision name = "" ∨
      clean_extracted_name_vision name = name) :=
  ⟨clean_name_cases name, clean_name_vision_cases name⟩

/-- C3 counterexample: the address cleaner `_clean_extracted_adresse` is
not idempotent — on "1111 X , 2222 B , Gasse 3" one application keeps
"2222 B , Gasse 3" (the postal-prefix strip re-exposes a second postal
prefix) and a second application reduces it further to "Gasse 3". -/
theorem claim_C3_counterexample :
    clean_extracted_adresse "1111 X , 2222 B , Gasse 3" = "2222 B , Gasse 3" ∧
    clean_extracted_adresse "2222 B , Gasse 3" = "Gasse 3" ∧
    clean_extracted_adresse (clean_extracted_adresse "1111 X , 2222 B , Gasse 3") ≠
      clean_extracted_adresse "1111 X , 2222 B , Gasse 3" := by
  refine ⟨rfl, rfl, ?_⟩
  decide

/-- C3 amended: the name cleaner is idempotent (for every input,
applying `_clean_extracted_name` twice equals applying it once); the
address cleaner is not (see the counterexample). -/
theorem claim_C3_amended_name_cleaner_idempotent (x : String) :
    clean_extracted_name (clean_extracted_name x) = clean_extracted_name x := by
  rcases clean_name_cases x with h | h
  · rw [h, clean_name_empty]
  · rw [h]; exact h

/-- The Scenario-A input text of spec §8. -/
def scenarioA : String :=
  "** B ***\n1 ANTEIL: 1/1\n     Maria Muster\n     GEB: 1975-03-02 ADR: Hauptstraße 5, Graz   8010\n** C ***\nfür Bank X AG\nHereinbringung von EUR 150.000,--\n** HINWEIS ***"

/-- C2 counterexample: on the Scenario-A text the claim-amount capture
stops at the comma — the class of `Hereinbringung von\s+(EUR\s+[\d\.,]+)`
has no hyphen — so the pipeline yields "EUR 150.000," and not the
claimed "EUR 150.000,--". -/
theorem claim_C2_counterexample :
    (gutachten_extract_info_fmt1 scenarioA).forderung_betrag = "EUR 150.000," ∧
    (gutachten_extract_info_fmt1 scenarioA).forderung_betrag ≠ "EUR 150.000,--" := by
  refine ⟨rfl, ?_⟩
  decide

/-- C2 amended: on the Scenario-A text the extraction pipeline (the
Section-B/C parse of `gutachten_extract_info` followed by the field
cleanup of `gutachten_enrich_notion_page`) yields owner name
"Maria Muster", cleaned owner address "Hauptstraße 5", postal code
"8010", creditors exactly ["Bank X AG"], and claim amount
"EUR 150.000," (not "EUR 150.000,--").  The final two conjuncts record
that the owner name and creditor list are non-empty, so the guarded
"Verpflichtete Partei" and "Betreibende Partei" fallbacks of the source
stay dead on this input. -/
theorem claim_C2_amended_scenarioA :
    (gutachten_extract_info_fmt1 scenarioA).eigentuemer_name = "Maria Muster" ∧
    clean_extracted_name
        (gutachten_extract_info_fmt1 scenarioA).eigentuemer_name = "Maria Muster" ∧
    clean_extracted_adresse
        (gutachten_extract_info_fmt1 scenarioA).eigentuemer_adresse = "Hauptstraße 5" ∧
    (gutachten_extract_info_fmt1 scenarioA).eigentuemer_plz_ort = "8010" ∧
    (gutachten_extract_info_fmt1 scenarioA).glaeubiger = ["Bank X AG"] ∧
    (gutachten_extract_info_fmt1 scenarioA).forderung_betrag = "EUR 150.000," ∧
    pyTruthy (gutachten_extract_info_fmt1 scenarioA).eigentuemer_name = true ∧
    (gutachten_extract_info_fmt1 scenarioA).glaeubiger ≠ [] := by
  refine ⟨rfl, rfl, rfl, rfl, rfl, rfl, rfl, ?_⟩
  decide

/-- C6 counterexample: the success signal of enricher.py's main loop
(src/enricher.py:605) is computed on the raw fields, so the placeholder
name "nicht angegeben" alone makes it true, while the cleaned fields
are both empty — the claimed equality with the cleaned-field
disjunction fails there. -/
theorem claim_C6_counterexample :
    enr_main_has_owner "nicht angegeben" "" = true ∧
    (pyTruthy (clean_extracted_name "nicht angegeben") ||
      pyTruthy (clean_extracted_adresse "")) = false := by
  exact ⟨rfl, rfl⟩

/-- C6 amended: in `gutachten_enrich_notion_page` the completeness
signal equals (cleaned owner name non-empty OR cleaned owner address
non-empty); "nicht angegeben" is normalized to empty and does not by
itself make the signal true, while a non-empty cleaned address alone
does.  (enricher.py's own loop computes its signal on the raw fields
instead; see the counterexample.) -/
theorem claim_C6_amended_has_owner :
    (∀ name adr : String,
      enrich_has_owner name adr = true ↔
        (clean_extracted_name name ≠ "" ∨ clean_extracted_adresse adr ≠ "")) ∧
    clean_extracted_name "nicht angegeben" = "" ∧
    (∀ adr : String, clean_extracted_adresse adr ≠ "" →
      enrich_has_owner "nicht angegeben" adr = true) := by
  refine ⟨fun name adr => ?_, rfl, fun adr h => ?_⟩
  · unfold enrich_has_owner
    rw [Bool.or_eq_true, pyTruthy_iff, pyTruthy_iff]
  · unfold enrich_has_owner
    rw [Bool.or_eq_true, pyTruthy_iff, pyTruthy_iff]
    exact Or.inr h

/-- C6 witness: a concrete cleaned address is non-empty and then the
signal is true despite the placeholder name. -/
theorem claim_C6_amended_witness :
    enrich_has_owner "nicht angegeben" "Hauptstraße 5" = true :=
  claim_C6_amended_has_owner.2.2 "Hauptstraße 5" (by decide)

/-- The record written by `gutachten_enrich_notion_page` for a scanned
document (no owner found, note marked "Kein Text lesbar – gescanntes
Dokument"), as it stands before the vision pass runs on it. -/
def c1record : AuctionRecord :=
  { analysiert := true, phase := "", archiviert := false,
    link := "https://edikte.justiz.gv.at/edikt",
    notizen := "Gutachten-PDF: https://edikte.justiz.gv.at/doc.pdf\n(Kein Text lesbar – gescanntes Dokument)",
    verpflichtende := "", zustellAdresse := "", zustellPlzOrt := "", betreibende := "" }

/-- C1 failing run: the vision pass selects the scanned record, its
failed attempt rewrites the note to the terminal permanently-unreadable
marker (erasing the "gescannt" marker), and the quality check — whose
skip markers are only "gescannt", "kein pdf", "nicht lesbar" — then
selects exactly this terminal record and resets its analysis flag,
re-entering it into the not-analyzed state; only the repair pass (whose
markers include "kein Eigentümer") skips it.  This contradicts the
claimed invariant and the source's own "nie wieder versuchen" comment
(src/main.py:2476). -/
theorem claim_C1_terminal_record_demoted :
    vision_selects c1record = true ∧
    (vision_terminal_update c1record).notizen =
      "Gutachten-PDF: https://edikte.justiz.gv.at/doc.pdf\n(Endgültig unleserlich – kein Eigentümer auffindbar)" ∧
    qualitaetscheck_resets (vision_terminal_update c1record) = true ∧
    repair_incomplete_selects (vision_terminal_update c1record) = false := by
  refine ⟨?_, ?_, ?_, ?_⟩ <;> rfl

/-- C5 failing run: the Tier-2 extractor sends only the 12,000-character
prefix and returns the empty candidate on an in-`try` failure, but a
syntactically valid model response that is not a JSON object (here the
array "[]") reaches the `data.get` calls outside the try/except and
raises AttributeError into the caller — contradicting both the claim
and the function's docstring ("Bei Fehler ...: leeres Dict"). -/
theorem claim_C5_nondict_response_raises :
    (∀ t : String, strLen (llm_snippet t) ≤ 12000 ∧
      (llm_snippet t).data <+: t.data) ∧
    gutachten_extract_info_llm (fun _ => .exn) "Edikt Volltext" = .ok none ∧
    gutachten_extract_info_llm (fun _ => .ok (.arr [])) "Edikt Volltext" =
      .error .attributeError := by
  refine ⟨fun t => ⟨?_, ?_⟩, rfl, rfl⟩
  · simp [llm_snippet, pyTake, strLen]
  · exact List.take_prefix 12000 t.data

/-- C4: for every record processed by the enrichment pass whose notice
page has no PDF attachment (and whose owner field is empty, as every
record the ingestion creates — src/main.py:1446 — and every record this
very branch has produced), the single write sets the analysis flag and
the fixed no-attachment note and touches no extraction field; on a
second run the record is selected by none of the enrichment,
quality-check, vision, or repair passes, so all its fields stay
unchanged. -/
theorem claim_C4_no_attachment_terminal (r : AuctionRecord)
    (_hsel : enrich_selects r = true)
    (hvp : pyStrip r.verpflichtende = "") :
    (no_attachment_update r).analysiert = true ∧
    (no_attachment_update r).notizen = "Kein PDF auf Edikt-Seite verfügbar" ∧
    (no_attachment_update r).verpflichtende = r.verpflichtende ∧
    (no_attachment_update r).zustellAdresse = r.zustellAdresse ∧
    (no_attachment_update r).zustellPlzOrt = r.zustellPlzOrt ∧
    (no_attachment_update r).betreibende = r.betreibende ∧
    enrich_selects (no_attachment_update r) = false ∧
    qualitaetscheck_resets (no_attachment_update r) = false ∧
    vision_selects (no_attachment_update r) = false ∧
    repair_court_selects (no_attachment_update r) = false ∧
    repair_incomplete_selects (no_attachment_update r) = false := by
  have hqc : qc_note_skip "Kein PDF auf Edikt-Seite verfügbar" = true := by decide
  have hvs : ist_gescannt "Kein PDF auf Edikt-Seite verfügbar" = false := by decide
  have hrp : repair_note_skip "Kein PDF auf Edikt-Seite verfügbar" = true := by decide
  refine ⟨rfl, rfl, rfl, rfl, rfl, rfl, ?_, ?_, ?_, ?_, ?_⟩
  · simp [enrich_selects, no_attachment_update]
  · simp [qualitaetscheck_resets, no_attachment_update, hqc]
  · simp [vision_selects, no_attachment_update, hvs]
  · simp [repair_court_selects, no_attachment_update, hvp, pyTruthy]
  · simp [repair_incomplete_selects, no_attachment_update, hrp]

/-- C4 witness: a freshly ingested record (not analysed, empty fields,
with a URL) satisfies the hypotheses and the theorem applies to it. -/
theorem claim_C4_no_attachment_terminal_witness :
    enrich_selects
        ⟨false, "", false, "https://edikte.justiz.gv.at/edikt", "", "", "", "", ""⟩ = true ∧
    (no_attachment_update
        ⟨false, "", false, "https://edikte.justiz.gv.at/edikt", "", "", "", "", ""⟩).analysiert
      = true :=
  ⟨by decide,
   (claim_C4_no_attachment_terminal
      ⟨false, "", false, "https://edikte.justiz.gv.at/edikt", "", "", "", "", ""⟩
      (by decide) (by decide)).1⟩

/-- C7 counterexample: the Section-C path de-duplicates only by exact
string, so two "für ..." lines differing only in their FN registry
number both survive, and the two entries are equal after the
FN-stripping normalization — refuting the claimed invariant for that
path. -/
theorem claim_C7_counterexample :
    (gb_parse_creditors
        "für Bank Austria AG (FN 123a)\nfür Bank Austria AG (FN 999b)").1 =
      ["Bank Austria AG (FN 123a)", "Bank Austria AG (FN 999b)"] ∧
    gl_normalize "Bank Austria AG (FN 123a)" =
      gl_normalize "Bank Austria AG (FN 999b)" := by
  exact ⟨rfl, rfl⟩

/-- Invariant of the pursuing-party de-duplication fold: when every
accumulated creditor's normalized form is in the seen set and the
accumulator is pairwise distinct under normalization, so is the final
list. -/
theorem gl_dedup_fold_pairwise (cands : List String) :
    ∀ seen out : List String,
      (∀ x ∈ out, seen.contains (gl_normalize x) = true) →
      out.Pairwise (fun a b => gl_normalize a ≠ gl_normalize b) →
      (gl_dedup_fold cands seen out).Pairwise
        (fun a b => gl_normalize a ≠ gl_normalize b) := by
  induction cands with
  | nil =>
    intro seen out _ hpw
    rw [gl_dedup_fold, List.pairwise_reverse]
    exact hpw.imp fun h => Ne.symm h
  | cons cand rest ih =>
    intro seen out hseen hpw
    rw [gl_dedup_fold]
    cases hc : gl_clean_candidate cand with
    | none => exact ih seen out hseen hpw
    | some gl =>
      simp only []
      by_cases hmem : seen.contains (gl_normalize gl) = true
      · rw [if_pos hmem]
        exact ih seen out hseen hpw
      · rw [if_neg hmem]
        apply ih
        · intro x hx
          rcases List.mem_cons.mp hx with hx | hx
          · subst hx
            rw [List.contains_cons, Bool.or_eq_true]
            exact Or.inl (by simp)
          · rw [List.contains_cons, Bool.or_eq_true]
            exact Or.inr (hseen x hx)
        · refine List.Pairwise.cons (fun x hx heq => ?_) hpw
          exact hmem (heq ▸ hseen x hx)

/-- Invariant of the Section-C creditor fold: exact-string
de-duplication makes the collected list pairwise distinct. -/
theorem gb_creditors_fold_pairwise (lines : List String) :
    ∀ seen acc : List String, ∀ betrag : String,
      (∀ x ∈ acc, seen.contains x = true) →
      acc.Pairwise (fun a b => a ≠ b) →
      ((gb_creditors_fold lines seen acc betrag).1).Pairwise (fun a b => a ≠ b) := by
  induction lines with
  | nil =>
    intro seen acc betrag _ hpw
    rw [gb_creditors_fold, List.pairwise_reverse]
    exact hpw.imp fun h => Ne.symm h
  | cons line rest ih =>
    intro seen acc betrag hseen hpw
    rw [gb_creditors_fold]
    cases hm : fuerMatch line with
    | none => exact ih _ _ _ hseen hpw
    | some g =>
      simp only []
      by_cases hcond :
          (strLen (pyRStripSet ['.'] (pyStrip g)) > 5 &&
            !seen.contains (pyRStripSet ['.'] (pyStrip g))) = true
      · rw [if_pos hcond]
        have hnotin : seen.contains (pyRStripSet ['.'] (pyStrip g)) = false := by
          rcases Bool.and_eq_true .. |>.mp hcond with ⟨_, h2⟩
          simpa using h2
        apply ih
        · intro x hx
          rcases List.mem_cons.mp hx with hx | hx
          · subst hx
            rw [List.contains_cons, Bool.or_eq_true]
            exact Or.inl (by simp)
          · rw [List.contains_cons, Bool.or_eq_true]
            exact Or.inr (hseen x hx)
        · refine List.Pairwise.cons (fun x hx heq => ?_) hpw
          rw [heq] at hnotin
          rw [hseen x hx] at hnotin
          exact Bool.true_eq_false.mp hnotin
      · rw [if_neg hcond]
        exact ih _ _ _ hseen hpw

/-- C7 amended: the pursuing-party creditor path de-duplicates by the
FN-stripped normalized form, so no two of its entries are equal after
normalization; the Section-C path de-duplicates only by exact string,
so no two of its entries are exactly equal (entries differing only in
their registry number can both appear — see the counterexample). -/
theorem claim_C7_amended_dedup (kandidaten : List String) (section_c : String) :
    (gl_final kandidaten).Pairwise (fun a b => gl_normalize a ≠ gl_normalize b) ∧
    ((gb_parse_creditors section_c).1).Pairwise (fun a b => a ≠ b) := by
  constructor
  · exact gl_dedup_fold_pairwise kandidaten [] [] (by simp) List.Pairwise.nil
  · have h := gb_creditors_fold_pairwise
      (((pySplitlines section_c).map pyStrip).filter pyTruthy) [] [] ""
      (by simp) List.Pairwise.nil
    simpa [gb_parse_creditors] using h

/-- The owner-name selection that claim C8 describes over a window of
`n` lines following the marker line: the first whose stripped form is
non-empty and passes the skip filters, stripped. -/
def claimNameScan (lines : List String) (i n : Nat) : Option String :=
  (((lines.drop (i + 1)).take n).find? (fun l => gb_name_ok (pyStrip l))).map pyStrip

/-- The name field produced by the index-based scan equals the first
accepted line (stripped) of the corresponding window slice. -/
theorem gb_owner_scan_name (lines : List String) :
    ∀ fuel j, (gb_owner_scan lines j fuel).name =
      ((((lines.drop j).take fuel).find? (fun l => gb_name_ok (pyStrip l))).map
        pyStrip).getD "" := by
  intro fuel
  induction fuel with
  | zero => intro j; simp [gb_owner_scan]
  | succ f ihf =>
    intro j
    cases hg : lines[j]? with
    | none =>
      have hnil : lines.drop j = [] :=
        List.drop_eq_nil_iff.mpr (List.getElem?_eq_none_iff.mp hg)
      simp [gb_owner_scan, List.get?_eq_getElem?, hg, hnil]
    | some line =>
      rcases List.getElem?_eq_some_iff.mp hg with ⟨hlt, hline⟩
      have hdrop : lines.drop j = line :: lines.drop (j + 1) := by
        rw [List.drop_eq_getElem_cons hlt, hline]
      rw [hdrop]
      by_cases hok : gb_name_ok (pyStrip line) = true
      · simp [gb_owner_scan, List.get?_eq_getElem?, hg, hok]
      · have hfind : List.find? (fun l => gb_name_ok (pyStrip l))
            (line :: List.take f (List.drop (j + 1) lines)) =
            List.find? (fun l => gb_name_ok (pyStrip l))
              (List.take f (List.drop (j + 1) lines)) :=
          List.find?_cons_of_neg _ hok
        rw [List.take_succ_cons, hfind]
        simp only [gb_owner_scan, List.get?_eq_getElem?, hg]
        rw [if_neg hok]
        exact ihf (j + 1)

/-- The lines of the C8 counterexample: seven decorative separator lines
follow the ownership-share marker, and the first acceptable line is the
eighth one after it. -/
def c8lines : List String :=
  ["1 ANTEIL: 1/1", "***", "***", "***", "***", "***", "***", "***", "Max Muster"]

/-- C8 counterexample: with the first acceptable line exactly 8 lines
after the "ANTEIL:" marker, the claimed 8-line scan would take it, but
`_gb_parse_single_owner` only scans range(i+1, min(i+8, len)) — 7 lines
— and finds no name. -/
theorem claim_C8_counterexample :
    claimNameScan c8lines 0 8 = some "Max Muster" ∧
    (gb_parse_single_owner c8lines 0).name = "" ∧
    (gb_parse_single_owner c8lines 0).name ≠ "Max Muster" := by
  refine ⟨rfl, rfl, ?_⟩
  decide

/-- C8 amended: for every list of lines and marker index, the pattern
extractor scans forward up to 7 lines (the Python range(i+1, min(i+8,
len)) of src/main.py:446) for the first line that is non-empty after
stripping and is not a continuation-number line, a birthdate/address
line, a decorative separator, or a page-footer artifact, and takes that
line (stripped) as the candidate owner name — the empty string when no
such line exists. -/
theorem claim_C8_amended_seven_line_scan (lines : List String) (i : Nat) :
    (gb_parse_single_owner lines i).name = (claimNameScan lines i 7).getD "" := by
  rw [gb_parse_single_owner, gb_owner_scan_name, claimNameScan]
  have htake : (lines.drop (i + 1)).take (min (i + 8) lines.length - (i + 1)) =
      (lines.drop (i + 1)).take 7 := by
    rw [List.take_eq_take]
    have hlen : (lines.drop (i + 1)).length = lines.length - (i + 1) :=
      List.length_drop _ _
    omega
  rw [htake]

theorem pyTruthy_eq_false (s : String) : pyTruthy s = false ↔ s = "" := by
  obtain ⟨l⟩ := s
  cases l <;> simp [pyTruthy, String.ext_iff]

/-- On a Section-B text none of whose stripped lines is a page-footer
artifact, the two name scans coincide: the page-footer filter is the
only difference between them. -/
theorem gb_enr_scan_eq (lines : List String)
    (h2 : ∀ l ∈ lines, seiteMatch (pyStrip l) = false) :
    ∀ fuel j, gb_owner_scan lines j fuel = enr_owner_scan lines j fuel := by
  intro fuel
  induction fuel with
  | zero => intro j; rfl
  | succ f ihf =>
    intro j
    cases hg : lines[j]? with
    | none => simp [gb_owner_scan, enr_owner_scan, List.get?_eq_getElem?, hg]
    | some line =>
      have hmem : line ∈ lines := by
        rcases List.getElem?_eq_some_iff.mp hg with ⟨hlt, hline⟩
        exact hline ▸ List.getElem_mem hlt
      have hname : gb_name_ok (pyStrip line) = enr_name_ok (pyStrip line) := by
        unfold gb_name_ok enr_name_ok
        rw [h2 line hmem]
        simp
      simp only [gb_owner_scan, enr_owner_scan, List.get?_eq_getElem?, hg]
      rw [hname, ihf (j + 1)]

/-- A scan that found no name found nothing at all. -/
theorem gb_owner_scan_empty (lines : List String) :
    ∀ fuel j, (gb_owner_scan lines j fuel).name = "" →
      gb_owner_scan lines j fuel = ⟨"", "", "", ""⟩ := by
  intro fuel
  induction fuel with
  | zero => intro j _; rfl
  | succ f ihf =>
    intro j h
    cases hg : lines[j]? with
    | none => simp [gb_owner_scan, List.get?_eq_getElem?, hg]
    | some line =>
      by_cases hok : gb_name_ok (pyStrip line) = true
      · exfalso
        simp only [gb_owner_scan, List.get?_eq_getElem?, hg, if_pos hok] at h
        rw [h] at hok
        exact absurd hok (by decide)
      · simp only [gb_owner_scan, List.get?_eq_getElem?, hg, if_neg hok] at h ⊢
        exact ihf (j + 1) h

/-- The Section-B text of the C9 counterexample: two distinct
ownership-share entries. -/
def c9section : String :=
  "** B ***\n1 ANTEIL: 1/2\n     Anna Alpha\n2 ANTEIL: 1/2\n     Bernd Beta"

/-- C9 counterexample: on a Section B with two ownership-share entries,
main.py's parser joins both deduped names while enricher.py's parser
stops after the first entry — the two parsers are not equivalent. -/
theorem claim_C9_counterexample :
    (gb_parse_owner c9section).name = "Anna Alpha | Bernd Beta" ∧
    (enr_parse_owner_from_section_b c9section).name = "Anna Alpha" ∧
    gb_parse_owner c9section ≠ enr_parse_owner_from_section_b c9section := by
  refine ⟨rfl, rfl, ?_⟩
  decide

/-- C9 amended: the two Section-B owner parsers agree on every text with
at most one ownership-share marker line and no page-footer line; they
differ in general (multiple entries: main.py joins all de-duplicated
names, enricher.py takes only the first; page-footer lines: only
main.py filters them). -/
theorem claim_C9_amended_single_entry (section_b : String)
    (h1 : (anteilIndices (pySplitlines section_b)).length ≤ 1)
    (h2 : ∀ l ∈ pySplitlines section_b, seiteMatch (pyStrip l) = false) :
    gb_parse_owner section_b = enr_parse_owner_from_section_b section_b := by
  simp only [gb_parse_owner, enr_parse_owner_from_section_b]
  cases hA : anteilIndices (pySplitlines section_b) with
  | nil => simp [dedupByName]
  | cons i rest =>
    cases rest with
    | cons i2 rest2 => rw [hA] at h1; simp at h1
    | nil =>
      dsimp only
      have hsc : enr_owner_scan (pySplitlines section_b) (i + 1)
          (min (i + 8) (pySplitlines section_b).length - (i + 1)) =
          gb_parse_single_owner (pySplitlines section_b) i :=
        (gb_enr_scan_eq (pySplitlines section_b) h2 _ _).symm
      rw [hsc]
      cases htr : pyTruthy (gb_parse_single_owner (pySplitlines section_b) i).name with
      | false =>
        have hname : (gb_parse_single_owner (pySplitlines section_b) i).name = "" :=
          (pyTruthy_eq_false _).mp htr
        have hempty : gb_parse_single_owner (pySplitlines section_b) i = ⟨"", "", "", ""⟩ :=
          gb_owner_scan_empty (pySplitlines section_b) _ (i + 1) hname
        rw [hempty]
        simp [List.filter_cons, dedupByName, pyTruthy, hname]
      | true =>
        simp only [List.map_cons, List.map_nil, List.filter, htr, dedupByName,
          List.contains_nil, Bool.false_eq_true, if_false, joinPipe]

/-- C9 witness: a concrete single-entry Section B satisfying both
hypotheses. -/
theorem claim_C9_amended_single_entry_witness :
    gb_parse_owner "1 ANTEIL: 1/1\n     Maria Muster" =
      enr_parse_owner_from_section_b "1 ANTEIL: 1/1\n     Maria Muster" :=
  claim_C9_amended_single_entry "1 ANTEIL: 1/1\n     Maria Muster"
    (by decide) (by decide)

end Edikte
